import Mathlib

/-!
Verification of the coverage-aggregation pipeline in `noxfile.py`
(sessions `rust` and `rust_coverage`).

The pipeline is embedded shallowly:

* Decoded JSON values (the results of `json.loads`) are modelled by
  `JsonVal`; a build-message line is a `Blob`, which either fails
  structural decode (`json.loads` raises `json.JSONDecodeError`) or
  decodes to a `JsonVal`.
* Python subscripting `data[k]`, `len`, truthiness and `list.extend`
  are modelled by `JsonVal.getItem`, `JsonVal.pyLen`, `JsonVal.truthy`
  and `JsonVal.extendElems`, raising the exceptions CPython raises
  (`KeyError` on a missing dict key, `TypeError` on subscripting a
  non-dict, and so on).
* The loop of lines 190-201 of `noxfile.py` is `processBlobs`.
* External commands, glob calls, environment updates and file
  open/close are recorded as an event trace; each external command's
  success or failure, and each glob's result, is an oracle in `CovExt`.
  A failing command raises (nox's `session.run` aborts the session),
  modelled as `Except.error .calledProcessError`.
* Python's `with` statement runs the context manager's exit action on
  every path out of the block: `session.chdir` restores the previous
  working directory and `open(...)` closes the handle.  The trace
  therefore always contains the matching `chdirExit` / `closeFile`
  event after the block's events, whether the block succeeded or
  raised.
-/

/-- A decoded JSON value, as produced by `json.loads`.  `obj` models a
Python dict (keys unique, first-match lookup). -/
inductive JsonVal where
  | null
  | bool (b : Bool)
  | num (n : Int)
  | str (s : String)
  | arr (elems : List JsonVal)
  | obj (fields : List (String × JsonVal))

/-- The Python exceptions the pipeline can raise. -/
inductive PyError where
  | jsonDecodeError
  | keyError
  | typeError
  | assertionError
  | calledProcessError
  deriving DecidableEq

/-- Python `data[k]` on a decoded JSON value: `KeyError` when the key is
missing from a dict, `TypeError` when subscripting a non-dict with a
string key. -/
def JsonVal.getItem : JsonVal → String → Except PyError JsonVal
  | .obj fields, k =>
    match fields.lookup k with
    | some v => .ok v
    | none => .error .keyError
  | _, _ => .error .typeError

/-- Python truthiness of a decoded JSON value. -/
def JsonVal.truthy : JsonVal → Bool
  | .null => false
  | .bool b => b
  | .num n => n != 0
  | .str s => s != ""
  | .arr elems => !elems.isEmpty
  | .obj fields => !fields.isEmpty

/-- Python `len` on a decoded JSON value (`TypeError` on values with no
length). -/
def JsonVal.pyLen : JsonVal → Except PyError Nat
  | .str s => .ok s.length
  | .arr elems => .ok elems.length
  | .obj fields => .ok fields.length
  | _ => .error .typeError

/-- The elements `list.extend(v)` appends: the items of a list, the
one-character strings of a string, the keys of a dict. -/
def JsonVal.extendElems : JsonVal → Except PyError (List JsonVal)
  | .str s => .ok (s.data.map fun c => .str c.toString)
  | .arr elems => .ok elems
  | .obj fields => .ok (fields.map fun kv => .str kv.1)
  | _ => .error .typeError

/-- One line of the captured `--message-format=json` stream: either
`json.loads` raises on it, or it decodes to a value. -/
inductive Blob where
  | undecodable
  | val (data : JsonVal)

/-- Lines 195-199 of `noxfile.py`: the body of the `try` block.

    if data["profile"]["test"]:
        assert len(data["filenames"]) == 1
        filenames.append("-object")
        filenames.extend(data["filenames"])

Every subscript can raise; the failed `assert` raises
`AssertionError`; mutation of `filenames` happens only after all
subscripts succeeded, so an exception leaves the list unchanged. -/
def tryBlock (filenames : List JsonVal) (data : JsonVal) :
    Except PyError (List JsonVal) :=
  match data.getItem "profile" with
  | .error e => .error e
  | .ok profile =>
    match profile.getItem "test" with
    | .error e => .error e
    | .ok t =>
      if t.truthy then
        match data.getItem "filenames" with
        | .error e => .error e
        | .ok fnames =>
          match fnames.pyLen with
          | .error e => .error e
          | .ok n =>
            if n = 1 then
              match fnames.extendElems with
              | .error e => .error e
              | .ok elems => .ok (filenames ++ JsonVal.str "-object" :: elems)
            else .error .assertionError
      else .ok filenames

/-- Lines 194-201 of `noxfile.py` for one line of the stream:
`data = json.loads(blob)` (outside the `try`, so a decode failure
propagates), then the `try` body with `except KeyError: pass`. -/
def processBlob (filenames : List JsonVal) (blob : Blob) :
    Except PyError (List JsonVal) :=
  match blob with
  | .undecodable => .error .jsonDecodeError
  | .val data =>
    match tryBlock filenames data with
    | .ok result => .ok result
    | .error .keyError => .ok filenames
    | .error e => .error e

/-- The loop of lines 193-201, threading the mutable `filenames` list. -/
def processBlobsFrom (filenames : List JsonVal) :
    List Blob → Except PyError (List JsonVal)
  | [] => .ok filenames
  | blob :: rest =>
    match processBlob filenames blob with
    | .ok fnames => processBlobsFrom fnames rest
    | .error e => .error e

/-- Lines 190-201: `filenames = []` followed by the loop over
`json_blobs.splitlines()`. -/
def processBlobs (blobs : List Blob) : Except PyError (List JsonVal) :=
  processBlobsFrom [] blobs

/-- Observable actions of the two nox sessions, in order. -/
inductive Event where
  | envUpdate (pairs : List (String × String))
  | install
  | runTests
  | chdirEnter (dir : String)
  | chdirExit
  | run (argv : List String)
  | runCaptured (argv : List String)
  | globCall (pat : String)
  | openFile (path : String) (mode : String)
  | closeFile (path : String)
  deriving DecidableEq

/-- The dict passed to `session.env.update` at lines 154-159. -/
def covEnv : List (String × String) :=
  [("RUSTFLAGS", "-Cinstrument-coverage"),
   ("LLVM_PROFILE_FILE", "rust-cov/cov-%p.profraw")]

/-- Line 164 / line 149: `cargo test --no-default-features`. -/
def cargoTestCmd : List String := ["cargo", "test", "--no-default-features"]

/-- Lines 166-176: the `cargo profdata -- merge` invocation, with the
glob results spliced in and a single `-o` output argument. -/
def mergeCmd (paths : List String) : List String :=
  "cargo" :: "profdata" :: "--" :: "merge" :: "-sparse" ::
    (paths ++ ["-o", "rust-cov.profdata"])

/-- Lines 178-189: the captured (`silent=True`) message-producing run. -/
def msgCmd : List String :=
  ["cargo", "test", "--no-default-features", "--all", "--tests",
   "--no-run", "-q", "--message-format=json"]

/-- Lines 202-205: the glob pattern for the installed shared object,
parameterised by `session.virtualenv.location`. -/
def soPattern (venvLocation : String) : String :=
  venvLocation ++
    "/lib/**/site-packages/cryptography/hazmat/bindings/_rust_abi3.so"

/-- An element of the Python `filenames` list rendered as a command
argument (in the source they are the marker string and the JSON string
paths). -/
def renderArg : JsonVal → String
  | .str s => s
  | _ => "<non-string>"

/-- Lines 207-221: the `cargo cov -- export` invocation. -/
def covCmd (rust_so : List String) (filenames : List JsonVal) : List String :=
  "cargo" :: "cov" :: "--" :: "export" ::
    (rust_so ++ filenames.map renderArg ++
      ["-instr-profile=rust-cov.profdata",
       "--ignore-filename-regex=\x27/.cargo/\x27",
       "--ignore-filename-regex=\x27/rustc/\x27",
       "--ignore-filename-regex=\x27/.rustup/toolchains/\x27",
       "--format=lcov"])

/-- Line 206: the fixed report destination. -/
def covReportPath : String := "../../cov.lcov"

/-- Line 165: the fragment-discovery glob pattern. -/
def profrawPat : String := "**/*.profraw"

/-- Oracle for everything external to `rust_coverage`: whether each
invoked command succeeds, what each glob returns, and the captured
output of the message run (`none` models a falsy result, i.e. empty or
absent output, so that `if json_blobs:` is false). -/
structure CovExt where
  testsOk : Bool
  cargoTestOk : Bool
  profrawGlob : List String
  profdataMergeOk : Bool
  capturedOk : Bool
  captured : Option (List Blob)
  venvLocation : String
  rustSoGlob : List String
  covExportOk : Bool

/-- Lines 202-221: locate the shared object, then
`with open("../../cov.lcov", "wb") as f:` around the export command.
The `closeFile` event is emitted on both exit paths of the `with`. -/
def covExportStage (ext : CovExt) (filenames : List JsonVal) :
    List Event × Except PyError Unit :=
  ([Event.globCall (soPattern ext.venvLocation),
    Event.openFile covReportPath "wb",
    Event.run (covCmd ext.rustSoGlob filenames),
    Event.closeFile covReportPath],
   if ext.covExportOk then .ok () else .error .calledProcessError)

/-- Lines 190-221: `if json_blobs:` guard, the parse loop, and (when
the loop finishes) the export stage.  An exception from the loop
propagates and nothing after it runs. -/
def parseStage (ext : CovExt) : List Event × Except PyError Unit :=
  match ext.captured with
  | none => ([], .ok ())
  | some blobs =>
    match processBlobs blobs with
    | .error e => ([], .error e)
    | .ok filenames => covExportStage ext filenames

/-- Lines 164-221: the body of `with session.chdir("src/rust/")` in
`rust_coverage`.  Each failing external command aborts the rest. -/
def chdirBody (ext : CovExt) : List Event × Except PyError Unit :=
  if ext.cargoTestOk = false then
    ([Event.run cargoTestCmd], .error .calledProcessError)
  else if ext.profdataMergeOk = false then
    ([Event.run cargoTestCmd, Event.globCall profrawPat,
      Event.run (mergeCmd ext.profrawGlob)],
     .error .calledProcessError)
  else if ext.capturedOk = false then
    ([Event.run cargoTestCmd, Event.globCall profrawPat,
      Event.run (mergeCmd ext.profrawGlob), Event.runCaptured msgCmd],
     .error .calledProcessError)
  else
    let rest := parseStage ext
    ([Event.run cargoTestCmd, Event.globCall profrawPat,
      Event.run (mergeCmd ext.profrawGlob), Event.runCaptured msgCmd] ++
       rest.1,
     rest.2)

/-- Lines 152-221: the `rust_coverage` session.  The env update comes
first, then `tests(session)` (modelled as one collaborator invocation),
then the chdir-scoped block; `chdirExit` is emitted on every exit path
of the `with`. -/
def rust_coverage (ext : CovExt) : List Event × Except PyError Unit :=
  if ext.testsOk = false then
    ([Event.envUpdate covEnv, Event.runTests], .error .calledProcessError)
  else
    let body := chdirBody ext
    ([Event.envUpdate covEnv, Event.runTests, Event.chdirEnter "src/rust/"] ++
       body.1 ++ [Event.chdirExit],
     body.2)

/-- Oracle for the `rust` session's external commands. -/
structure RustExt where
  installOk : Bool
  fmtOk : Bool
  clippyOk : Bool
  cargoTestOk : Bool

/-- Line 147: `cargo fmt --all -- --check`. -/
def fmtCmd : List String := ["cargo", "fmt", "--all", "--", "--check"]

/-- Line 148: `cargo clippy -- -D warnings`. -/
def clippyCmd : List String := ["cargo", "clippy", "--", "-D", "warnings"]

/-- Lines 147-149: the body of `with session.chdir("src/rust/")` in the
`rust` session. -/
def rustBody (ext : RustExt) : List Event × Except PyError Unit :=
  if ext.fmtOk = false then
    ([Event.run fmtCmd], .error .calledProcessError)
  else if ext.clippyOk = false then
    ([Event.run fmtCmd, Event.run clippyCmd], .error .calledProcessError)
  else
    ([Event.run fmtCmd, Event.run clippyCmd, Event.run cargoTestCmd],
     if ext.cargoTestOk then .ok () else .error .calledProcessError)

/-- Lines 142-149: the `rust` session. -/
def rust (ext : RustExt) : List Event × Except PyError Unit :=
  if ext.installOk = false then
    ([Event.install], .error .calledProcessError)
  else
    let body := rustBody ext
    ([Event.install, Event.chdirEnter "src/rust/"] ++ body.1 ++
       [Event.chdirExit],
     body.2)

/-- Replay the working-directory effect of a trace: `chdirEnter` saves
the current directory on a stack and moves; `chdirExit` restores the
saved directory. -/
def cwdReplay : String → List String → List Event → String × List String
  | cwd, stack, [] => (cwd, stack)
  | cwd, stack, Event.chdirEnter d :: rest => cwdReplay d (cwd :: stack) rest
  | cwd, stack, Event.chdirExit :: rest =>
    (match stack with
     | [] => cwdReplay cwd [] rest
     | prev :: t => cwdReplay prev t rest)
  | cwd, stack, _ :: rest => cwdReplay cwd stack rest

/-- Is this event an invocation of the profile-merge command? -/
def isMergeRun : Event → Bool
  | .run ("cargo" :: "profdata" :: _) => true
  | _ => false

/-- Is this event an invocation of the coverage-export command? -/
def isCovRun : Event → Bool
  | .run ("cargo" :: "cov" :: _) => true
  | _ => false

/-- Is this event a file open? -/
def isOpenEvent : Event → Bool
  | .openFile _ _ => true
  | _ => false

/-- Is this event a file open at a different path or in a different
mode than the fixed binary-mode report destination? -/
def isBadOpen : Event → Bool
  | .openFile p m => p != covReportPath || m != "wb"
  | _ => false

/-- Is this event a glob other than fragment discovery (i.e. the
shared-object lookup)? -/
def isSoGlob : Event → Bool
  | .globCall pat => pat != profrawPat
  | _ => false

/-- Does a `closeFile p` event occur in the trace? -/
def closesAfter (p : String) : List Event → Bool
  | [] => false
  | Event.closeFile q :: rest => (q == p) || closesAfter p rest
  | _ :: rest => closesAfter p rest

/-- Every `openFile` in the trace is followed by a `closeFile` of the
same path. -/
def handlesClosed : List Event → Bool
  | [] => true
  | Event.openFile p _ :: rest => closesAfter p rest && handlesClosed rest
  | _ :: rest => handlesClosed rest

/-- The decoded value lacks an expected field: one of the subscripts
`data["profile"]`, `profile["test"]` or (when the test flag is truthy)
`data["filenames"]` raises `KeyError`.  This is the class of messages
the `except KeyError: pass` at lines 200-201 is meant to skip. -/
def missingExpectedField (data : JsonVal) : Bool :=
  match data.getItem "profile" with
  | .error .keyError => true
  | .error _ => false
  | .ok profile =>
    match profile.getItem "test" with
    | .error .keyError => true
    | .error _ => false
    | .ok t =>
      if t.truthy then
        match data.getItem "filenames" with
        | .error .keyError => true
        | _ => false
      else false

/-- A line that decodes and contributes nothing to `filenames` without
raising: either the `try` body completes with no appended entries (test
flag falsy) or it raises `KeyError`, which is caught. -/
def nonContributing (blob : Blob) : Bool :=
  match blob with
  | .undecodable => false
  | .val data =>
    match tryBlock [] data with
    | .ok [] => true
    | .error .keyError => true
    | _ => false

/-- A well-formed test-profile build message with exactly one path. -/
def tpData (p : String) : JsonVal :=
  JsonVal.obj
    [("profile", JsonVal.obj [("test", JsonVal.bool true)]),
     ("filenames", JsonVal.arr [JsonVal.str p])]

/-- The blob of a well-formed test-profile message. -/
def tpBlob (p : String) : Blob := Blob.val (tpData p)

/-- A test-profile message with a zero-length path list: the shape the
`assert` at line 197 rejects. -/
def badRecord : JsonVal :=
  JsonVal.obj
    [("profile", JsonVal.obj [("test", JsonVal.bool true)]),
     ("filenames", JsonVal.arr [])]

/-- A test-profile message lacking the `filenames` field entirely. -/
def missingFieldRecord : JsonVal :=
  JsonVal.obj [("profile", JsonVal.obj [("test", JsonVal.bool true)])]

/-- A mixed stream element: either a well-formed test-profile record
with its path, or some other blob. -/
def itemBlob : String ⊕ Blob → Blob
  | .inl p => tpBlob p
  | .inr b => b

/-- The path carried by a test-profile stream element. -/
def itemPath : String ⊕ Blob → Option String
  | .inl p => some p
  | .inr _ => none

/-- A stream element that is not a test-profile record must be a
non-contributing line. -/
def goodItem : String ⊕ Blob → Bool
  | .inl _ => true
  | .inr b => nonContributing b

/-- Every non-test-profile element of the mixed stream is a
non-contributing line. -/
def goodItems (items : List (String ⊕ Blob)) : Bool :=
  items.all goodItem

/-- The two entries one well-formed test-profile record appends: the
marker token followed by the single path. -/
def markerPair (p : String) : List JsonVal :=
  [JsonVal.str "-object", JsonVal.str p]

/-- The `filenames` list a mixed stream should produce: one marker-path
pair per test-profile record, in encounter order. -/
def expectedRefs (items : List (String ⊕ Blob)) : List JsonVal :=
  ((items.filterMap itemPath).map markerPair).flatten

/-- Oracle with no discovered fragments and all commands succeeding. -/
def extNoFrag : CovExt :=
  ⟨true, true, [], true, true, none, ".nox/rust-coverage", [], true⟩

/-- Oracle whose captured stream has one undecodable line. -/
def extUndecodable : CovExt :=
  ⟨true, true, ["a.profraw"], true, true, some [Blob.undecodable],
   ".nox/rust-coverage", ["lib/_rust_abi3.so"], true⟩

/-- Oracle whose captured stream decodes but yields zero test-binary
references. -/
def extEmptyRefs : CovExt :=
  ⟨true, true, ["a.profraw"], true, true, some [Blob.val (JsonVal.obj [])],
   ".nox/rust-coverage", ["lib/_rust_abi3.so"], true⟩

/-- Oracle whose captured stream holds one test-profile record with a
zero-length path list. -/
def extBadRecord : CovExt :=
  ⟨true, true, ["a.profraw"], true, true, some [Blob.val badRecord],
   ".nox/rust-coverage", ["lib/_rust_abi3.so"], true⟩

/-- Oracle with all commands succeeding and an absent captured output. -/
def extNoOutput : CovExt :=
  ⟨true, true, ["a.profraw"], true, true, none,
   ".nox/rust-coverage", ["lib/_rust_abi3.so"], true⟩

/-- A concrete mixed stream: two well-formed test-profile records with
a non-contributing decoded line between them. -/
def witnessItems : List (String ⊕ Blob) :=
  [Sum.inl "bin1", Sum.inr (Blob.val (JsonVal.obj [])), Sum.inl "bin2"]


/-- The `try` body only appends: its result on an arbitrary starting
list is its result on the empty list, prefixed by the starting list. -/
theorem tryBlock_shift (fns : List JsonVal) (d : JsonVal) :
    tryBlock fns d = (tryBlock [] d).map fun l => fns ++ l := by
  unfold tryBlock
  cases hp : d.getItem "profile" with
  | error e => rfl
  | ok profile =>
    dsimp only
    cases ht : profile.getItem "test" with
    | error e => rfl
    | ok t =>
      dsimp only
      cases htr : t.truthy with
      | false => simp [Except.map]
      | true =>
        simp only [if_true]
        cases hf : d.getItem "filenames" with
        | error e => rfl
        | ok fv =>
          dsimp only
          cases hl : fv.pyLen with
          | error e => rfl
          | ok n =>
            dsimp only
            by_cases hn : n = 1
            · subst hn
              simp only [if_pos]
              cases he : fv.extendElems with
              | error e => rfl
              | ok elems => rfl
            · simp [hn, Except.map]

/-- A non-contributing line leaves `filenames` unchanged and raises
nothing. -/
theorem processBlob_nonContributing (fns : List JsonVal) (b : Blob)
    (h : nonContributing b = true) :
    processBlob fns b = .ok fns := by
  cases b with
  | undecodable => simp [nonContributing] at h
  | val d =>
    unfold nonContributing at h
    dsimp only at h
    simp only [processBlob]
    rw [tryBlock_shift]
    cases htb : tryBlock [] d with
    | ok l =>
      rw [htb] at h
      cases l with
      | nil => simp [Except.map]
      | cons a as => simp at h
    | error e =>
      rw [htb] at h
      cases e <;> simp_all [Except.map]

/-- One well-formed test-profile record appends exactly the marker and
its single path. -/
theorem processBlob_tp (fns : List JsonVal) (p : String) :
    processBlob fns (tpBlob p) = .ok (fns ++ markerPair p) := rfl

/-- Splitting the loop at a list append. -/
theorem processBlobsFrom_append (fns : List JsonVal) (xs ys : List Blob) :
    processBlobsFrom fns (xs ++ ys) =
      match processBlobsFrom fns xs with
      | .ok f2 => processBlobsFrom f2 ys
      | .error e => .error e := by
  induction xs generalizing fns with
  | nil => rfl
  | cons b rest ih =>
    simp only [List.cons_append, processBlobsFrom]
    cases processBlob fns b with
    | ok f2 => exact ih f2
    | error e => rfl

/-- The loop over a mixed stream of well-formed test-profile records
and non-contributing lines appends one marker-path pair per record. -/
theorem processBlobsFrom_items (items : List (String ⊕ Blob))
    (h : goodItems items = true) (fns : List JsonVal) :
    processBlobsFrom fns (items.map itemBlob) =
      .ok (fns ++ expectedRefs items) := by
  induction items generalizing fns with
  | nil => simp [expectedRefs, processBlobsFrom, itemPath]
  | cons it rest ih =>
    have hsplit : goodItem it = true ∧ goodItems rest = true := by
      unfold goodItems at h
      rw [List.all_cons, Bool.and_eq_true] at h
      exact h
    cases it with
    | inl p =>
      simp only [List.map_cons, itemBlob, processBlobsFrom, processBlob_tp]
      rw [ih hsplit.2]
      simp [expectedRefs, itemPath, List.append_assoc]
    | inr b =>
      have hb : nonContributing b = true := hsplit.1
      simp only [List.map_cons, itemBlob, processBlobsFrom,
        processBlob_nonContributing fns b hb]
      rw [ih hsplit.2]
      simp [expectedRefs, itemPath]

/-- `processBlobs` on a mixed stream. -/
theorem processBlobs_items (items : List (String ⊕ Blob))
    (h : goodItems items = true) :
    processBlobs (items.map itemBlob) = .ok (expectedRefs items) := by
  have hx := processBlobsFrom_items items h []
  simpa [processBlobs] using hx

/-- Two produced entries per test-profile record. -/
theorem flatten_markerPair_length (ps : List String) :
    ((ps.map markerPair).flatten).length = 2 * ps.length := by
  induction ps with
  | nil => rfl
  | cons p ps ih =>
    simp only [List.map_cons, List.flatten_cons, List.length_append, ih,
      markerPair, List.length_cons]
    simp
    omega

/-- The produced list has two entries per test-profile record. -/
theorem expectedRefs_length (items : List (String ⊕ Blob)) :
    (expectedRefs items).length = 2 * (items.filterMap itemPath).length := by
  unfold expectedRefs
  exact flatten_markerPair_length (items.filterMap itemPath)

/-- A test-profile record whose path list does not have exactly one
entry makes the `try` body raise `AssertionError`. -/
theorem tryBlock_assertion (fns : List JsonVal) (d p t : JsonVal)
    (files : List JsonVal)
    (hp : d.getItem "profile" = .ok p)
    (ht : p.getItem "test" = .ok t)
    (htr : t.truthy = true)
    (hf : d.getItem "filenames" = .ok (JsonVal.arr files))
    (hn : files.length ≠ 1) :
    tryBlock fns d = .error .assertionError := by
  unfold tryBlock
  rw [hp]
  dsimp only
  rw [ht]
  dsimp only
  rw [htr]
  simp only [if_true]
  rw [hf]
  dsimp only
  simp [JsonVal.pyLen, hn]

/-- `AssertionError` is not caught by the `except KeyError` handler. -/
theorem processBlob_assertion (fns : List JsonVal) (d : JsonVal)
    (h : tryBlock fns d = .error .assertionError) :
    processBlob fns (.val d) = .error .assertionError := by
  simp only [processBlob]
  rw [h]


/- Values of `isMergeRun` on each event shape the traces contain. -/
theorem isMergeRun_envUpdate (ps : List (String × String)) : isMergeRun (Event.envUpdate ps) = false := rfl
theorem isMergeRun_install : isMergeRun Event.install = false := rfl
theorem isMergeRun_runTests : isMergeRun Event.runTests = false := rfl
theorem isMergeRun_chdirEnter (d : String) : isMergeRun (Event.chdirEnter d) = false := rfl
theorem isMergeRun_chdirExit : isMergeRun Event.chdirExit = false := rfl
theorem isMergeRun_runCaptured (argv : List String) : isMergeRun (Event.runCaptured argv) = false := rfl
theorem isMergeRun_globCall (pat : String) : isMergeRun (Event.globCall pat) = false := rfl
theorem isMergeRun_openFile (p m : String) : isMergeRun (Event.openFile p m) = false := rfl
theorem isMergeRun_closeFile (p : String) : isMergeRun (Event.closeFile p) = false := rfl
theorem isMergeRun_runCargoTest : isMergeRun (Event.run cargoTestCmd) = false := rfl
theorem isMergeRun_runFmt : isMergeRun (Event.run fmtCmd) = false := rfl
theorem isMergeRun_runClippy : isMergeRun (Event.run clippyCmd) = false := rfl
theorem isMergeRun_runMerge (paths : List String) : isMergeRun (Event.run (mergeCmd paths)) = true := rfl
theorem isMergeRun_runCov (so : List String) (fns : List JsonVal) : isMergeRun (Event.run (covCmd so fns)) = false := rfl

/- Values of `isCovRun` on each event shape the traces contain. -/
theorem isCovRun_envUpdate (ps : List (String × String)) : isCovRun (Event.envUpdate ps) = false := rfl
theorem isCovRun_install : isCovRun Event.install = false := rfl
theorem isCovRun_runTests : isCovRun Event.runTests = false := rfl
theorem isCovRun_chdirEnter (d : String) : isCovRun (Event.chdirEnter d) = false := rfl
theorem isCovRun_chdirExit : isCovRun Event.chdirExit = false := rfl
theorem isCovRun_runCaptured (argv : List String) : isCovRun (Event.runCaptured argv) = false := rfl
theorem isCovRun_globCall (pat : String) : isCovRun (Event.globCall pat) = false := rfl
theorem isCovRun_openFile (p m : String) : isCovRun (Event.openFile p m) = false := rfl
theorem isCovRun_closeFile (p : String) : isCovRun (Event.closeFile p) = false := rfl
theorem isCovRun_runCargoTest : isCovRun (Event.run cargoTestCmd) = false := rfl
theorem isCovRun_runFmt : isCovRun (Event.run fmtCmd) = false := rfl
theorem isCovRun_runClippy : isCovRun (Event.run clippyCmd) = false := rfl
theorem isCovRun_runMerge (paths : List String) : isCovRun (Event.run (mergeCmd paths)) = false := rfl
theorem isCovRun_runCov (so : List String) (fns : List JsonVal) : isCovRun (Event.run (covCmd so fns)) = true := rfl

/- Values of `isOpenEvent` on each event shape the traces contain. -/
theorem isOpenEvent_envUpdate (ps : List (String × String)) : isOpenEvent (Event.envUpdate ps) = false := rfl
theorem isOpenEvent_install : isOpenEvent Event.install = false := rfl
theorem isOpenEvent_runTests : isOpenEvent Event.runTests = false := rfl
theorem isOpenEvent_chdirEnter (d : String) : isOpenEvent (Event.chdirEnter d) = false := rfl
theorem isOpenEvent_chdirExit : isOpenEvent Event.chdirExit = false := rfl
theorem isOpenEvent_runCaptured (argv : List String) : isOpenEvent (Event.runCaptured argv) = false := rfl
theorem isOpenEvent_globCall (pat : String) : isOpenEvent (Event.globCall pat) = false := rfl
theorem isOpenEvent_openFile (p m : String) : isOpenEvent (Event.openFile p m) = true := rfl
theorem isOpenEvent_closeFile (p : String) : isOpenEvent (Event.closeFile p) = false := rfl
theorem isOpenEvent_runCargoTest : isOpenEvent (Event.run cargoTestCmd) = false := rfl
theorem isOpenEvent_runFmt : isOpenEvent (Event.run fmtCmd) = false := rfl
theorem isOpenEvent_runClippy : isOpenEvent (Event.run clippyCmd) = false := rfl
theorem isOpenEvent_runMerge (paths : List String) : isOpenEvent (Event.run (mergeCmd paths)) = false := rfl
theorem isOpenEvent_runCov (so : List String) (fns : List JsonVal) : isOpenEvent (Event.run (covCmd so fns)) = false := rfl

/- Values of `isBadOpen` on each event shape the traces contain. -/
theorem isBadOpen_envUpdate (ps : List (String × String)) : isBadOpen (Event.envUpdate ps) = false := rfl
theorem isBadOpen_install : isBadOpen Event.install = false := rfl
theorem isBadOpen_runTests : isBadOpen Event.runTests = false := rfl
theorem isBadOpen_chdirEnter (d : String) : isBadOpen (Event.chdirEnter d) = false := rfl
theorem isBadOpen_chdirExit : isBadOpen Event.chdirExit = false := rfl
theorem isBadOpen_runCaptured (argv : List String) : isBadOpen (Event.runCaptured argv) = false := rfl
theorem isBadOpen_globCall (pat : String) : isBadOpen (Event.globCall pat) = false := rfl
theorem isBadOpen_openFile : isBadOpen (Event.openFile covReportPath "wb") = false := rfl
theorem isBadOpen_closeFile (p : String) : isBadOpen (Event.closeFile p) = false := rfl
theorem isBadOpen_runCargoTest : isBadOpen (Event.run cargoTestCmd) = false := rfl
theorem isBadOpen_runFmt : isBadOpen (Event.run fmtCmd) = false := rfl
theorem isBadOpen_runClippy : isBadOpen (Event.run clippyCmd) = false := rfl
theorem isBadOpen_runMerge (paths : List String) : isBadOpen (Event.run (mergeCmd paths)) = false := rfl
theorem isBadOpen_runCov (so : List String) (fns : List JsonVal) : isBadOpen (Event.run (covCmd so fns)) = false := rfl

/- Values of `isSoGlob` on each event shape the traces contain. -/
theorem isSoGlob_envUpdate (ps : List (String × String)) : isSoGlob (Event.envUpdate ps) = false := rfl
theorem isSoGlob_install : isSoGlob Event.install = false := rfl
theorem isSoGlob_runTests : isSoGlob Event.runTests = false := rfl
theorem isSoGlob_chdirEnter (d : String) : isSoGlob (Event.chdirEnter d) = false := rfl
theorem isSoGlob_chdirExit : isSoGlob Event.chdirExit = false := rfl
theorem isSoGlob_runCaptured (argv : List String) : isSoGlob (Event.runCaptured argv) = false := rfl
theorem isSoGlob_globCall : isSoGlob (Event.globCall profrawPat) = false := rfl
theorem isSoGlob_openFile (p m : String) : isSoGlob (Event.openFile p m) = false := rfl
theorem isSoGlob_closeFile (p : String) : isSoGlob (Event.closeFile p) = false := rfl
theorem isSoGlob_runCargoTest : isSoGlob (Event.run cargoTestCmd) = false := rfl
theorem isSoGlob_runFmt : isSoGlob (Event.run fmtCmd) = false := rfl
theorem isSoGlob_runClippy : isSoGlob (Event.run clippyCmd) = false := rfl
theorem isSoGlob_runMerge (paths : List String) : isSoGlob (Event.run (mergeCmd paths)) = false := rfl
theorem isSoGlob_runCov (so : List String) (fns : List JsonVal) : isSoGlob (Event.run (covCmd so fns)) = false := rfl

/- Step equations for `cwdReplay` on each event shape. -/
theorem cwdReplay_nil (cwd : String) (stack : List String) : cwdReplay cwd stack [] = (cwd, stack) := rfl
theorem cwdReplay_enter (cwd dir : String) (stack : List String) (rest : List Event) : cwdReplay cwd stack (Event.chdirEnter dir :: rest) = cwdReplay dir (cwd :: stack) rest := rfl
theorem cwdReplay_exit_nil (cwd : String) (rest : List Event) : cwdReplay cwd [] (Event.chdirExit :: rest) = cwdReplay cwd [] rest := rfl
theorem cwdReplay_exit_cons (cwd prev : String) (tl : List String) (rest : List Event) : cwdReplay cwd (prev :: tl) (Event.chdirExit :: rest) = cwdReplay prev tl rest := rfl
theorem cwdReplay_envUpdate (cwd : String) (stack : List String) (ps : List (String × String)) (rest : List Event) : cwdReplay cwd stack (Event.envUpdate ps :: rest) = cwdReplay cwd stack rest := rfl
theorem cwdReplay_install (cwd : String) (stack : List String) (rest : List Event) : cwdReplay cwd stack (Event.install :: rest) = cwdReplay cwd stack rest := rfl
theorem cwdReplay_runTests (cwd : String) (stack : List String) (rest : List Event) : cwdReplay cwd stack (Event.runTests :: rest) = cwdReplay cwd stack rest := rfl
theorem cwdReplay_run (cwd : String) (stack : List String) (argv : List String) (rest : List Event) : cwdReplay cwd stack (Event.run argv :: rest) = cwdReplay cwd stack rest := rfl
theorem cwdReplay_runCaptured (cwd : String) (stack : List String) (argv : List String) (rest : List Event) : cwdReplay cwd stack (Event.runCaptured argv :: rest) = cwdReplay cwd stack rest := rfl
theorem cwdReplay_globCall (cwd : String) (stack : List String) (pat : String) (rest : List Event) : cwdReplay cwd stack (Event.globCall pat :: rest) = cwdReplay cwd stack rest := rfl
theorem cwdReplay_openFile (cwd : String) (stack : List String) (p m : String) (rest : List Event) : cwdReplay cwd stack (Event.openFile p m :: rest) = cwdReplay cwd stack rest := rfl
theorem cwdReplay_closeFile (cwd : String) (stack : List String) (p : String) (rest : List Event) : cwdReplay cwd stack (Event.closeFile p :: rest) = cwdReplay cwd stack rest := rfl

/- Step equations for `closesAfter` on each event shape. -/
theorem closesAfter_nil (q : String) : closesAfter q [] = false := rfl
theorem closesAfter_closeFile (q p : String) (rest : List Event) : closesAfter q (Event.closeFile p :: rest) = ((p == q) || closesAfter q rest) := rfl
theorem closesAfter_envUpdate (q : String) (ps : List (String × String)) (rest : List Event) : closesAfter q (Event.envUpdate ps :: rest) = closesAfter q rest := rfl
theorem closesAfter_install (q : String) (rest : List Event) : closesAfter q (Event.install :: rest) = closesAfter q rest := rfl
theorem closesAfter_runTests (q : String) (rest : List Event) : closesAfter q (Event.runTests :: rest) = closesAfter q rest := rfl
theorem closesAfter_run (q : String) (argv : List String) (rest : List Event) : closesAfter q (Event.run argv :: rest) = closesAfter q rest := rfl
theorem closesAfter_runCaptured (q : String) (argv : List String) (rest : List Event) : closesAfter q (Event.runCaptured argv :: rest) = closesAfter q rest := rfl
theorem closesAfter_globCall (q : String) (pat : String) (rest : List Event) : closesAfter q (Event.globCall pat :: rest) = closesAfter q rest := rfl
theorem closesAfter_chdirEnter (q : String) (d : String) (rest : List Event) : closesAfter q (Event.chdirEnter d :: rest) = closesAfter q rest := rfl
theorem closesAfter_chdirExit (q : String) (rest : List Event) : closesAfter q (Event.chdirExit :: rest) = closesAfter q rest := rfl
theorem closesAfter_openFile (q : String) (p m : String) (rest : List Event) : closesAfter q (Event.openFile p m :: rest) = closesAfter q rest := rfl

/- Step equations for `handlesClosed` on each event shape. -/
theorem handlesClosed_nil : handlesClosed [] = true := rfl
theorem handlesClosed_openFile (p m : String) (rest : List Event) : handlesClosed (Event.openFile p m :: rest) = (closesAfter p rest && handlesClosed rest) := rfl
theorem handlesClosed_envUpdate (ps : List (String × String)) (rest : List Event) : handlesClosed (Event.envUpdate ps :: rest) = handlesClosed rest := rfl
theorem handlesClosed_install (rest : List Event) : handlesClosed (Event.install :: rest) = handlesClosed rest := rfl
theorem handlesClosed_runTests (rest : List Event) : handlesClosed (Event.runTests :: rest) = handlesClosed rest := rfl
theorem handlesClosed_run (argv : List String) (rest : List Event) : handlesClosed (Event.run argv :: rest) = handlesClosed rest := rfl
theorem handlesClosed_runCaptured (argv : List String) (rest : List Event) : handlesClosed (Event.runCaptured argv :: rest) = handlesClosed rest := rfl
theorem handlesClosed_globCall (pat : String) (rest : List Event) : handlesClosed (Event.globCall pat :: rest) = handlesClosed rest := rfl
theorem handlesClosed_chdirEnter (d : String) (rest : List Event) : handlesClosed (Event.chdirEnter d :: rest) = handlesClosed rest := rfl
theorem handlesClosed_chdirExit (rest : List Event) : handlesClosed (Event.chdirExit :: rest) = handlesClosed rest := rfl
theorem handlesClosed_closeFile (p : String) (rest : List Event) : handlesClosed (Event.closeFile p :: rest) = handlesClosed rest := rfl

attribute [simp]
  isMergeRun_envUpdate
  isMergeRun_install
  isMergeRun_runTests
  isMergeRun_chdirEnter
  isMergeRun_chdirExit
  isMergeRun_runCaptured
  isMergeRun_globCall
  isMergeRun_openFile
  isMergeRun_closeFile
  isMergeRun_runCargoTest
  isMergeRun_runFmt
  isMergeRun_runClippy
  isMergeRun_runMerge
  isMergeRun_runCov
  isCovRun_envUpdate
  isCovRun_install
  isCovRun_runTests
  isCovRun_chdirEnter
  isCovRun_chdirExit
  isCovRun_runCaptured
  isCovRun_globCall
  isCovRun_openFile
  isCovRun_closeFile
  isCovRun_runCargoTest
  isCovRun_runFmt
  isCovRun_runClippy
  isCovRun_runMerge
  isCovRun_runCov
  isOpenEvent_envUpdate
  isOpenEvent_install
  isOpenEvent_runTests
  isOpenEvent_chdirEnter
  isOpenEvent_chdirExit
  isOpenEvent_runCaptured
  isOpenEvent_globCall
  isOpenEvent_openFile
  isOpenEvent_closeFile
  isOpenEvent_runCargoTest
  isOpenEvent_runFmt
  isOpenEvent_runClippy
  isOpenEvent_runMerge
  isOpenEvent_runCov
  isBadOpen_envUpdate
  isBadOpen_install
  isBadOpen_runTests
  isBadOpen_chdirEnter
  isBadOpen_chdirExit
  isBadOpen_runCaptured
  isBadOpen_globCall
  isBadOpen_openFile
  isBadOpen_closeFile
  isBadOpen_runCargoTest
  isBadOpen_runFmt
  isBadOpen_runClippy
  isBadOpen_runMerge
  isBadOpen_runCov
  isSoGlob_envUpdate
  isSoGlob_install
  isSoGlob_runTests
  isSoGlob_chdirEnter
  isSoGlob_chdirExit
  isSoGlob_runCaptured
  isSoGlob_globCall
  isSoGlob_openFile
  isSoGlob_closeFile
  isSoGlob_runCargoTest
  isSoGlob_runFmt
  isSoGlob_runClippy
  isSoGlob_runMerge
  isSoGlob_runCov
  cwdReplay_nil
  cwdReplay_enter
  cwdReplay_exit_nil
  cwdReplay_exit_cons
  cwdReplay_envUpdate
  cwdReplay_install
  cwdReplay_runTests
  cwdReplay_run
  cwdReplay_runCaptured
  cwdReplay_globCall
  cwdReplay_openFile
  cwdReplay_closeFile
  closesAfter_nil
  closesAfter_closeFile
  closesAfter_envUpdate
  closesAfter_install
  closesAfter_runTests
  closesAfter_run
  closesAfter_runCaptured
  closesAfter_globCall
  closesAfter_chdirEnter
  closesAfter_chdirExit
  closesAfter_openFile
  handlesClosed_nil
  handlesClosed_openFile
  handlesClosed_envUpdate
  handlesClosed_install
  handlesClosed_runTests
  handlesClosed_run
  handlesClosed_runCaptured
  handlesClosed_globCall
  handlesClosed_chdirEnter
  handlesClosed_chdirExit
  handlesClosed_closeFile

/-- Claim C1, counterexample: with zero discovered fragment paths the
external profile-merge command IS invoked (the claim says it must not
be).  `extNoFrag` has an empty `profrawGlob`, yet the trace contains
the merge invocation with an empty path splice. -/
theorem mergeInvokedOnEmptyFragments :
    extNoFrag.profrawGlob = [] ∧
    Event.run (mergeCmd []) ∈ (rust_coverage extNoFrag).1 :=
  ⟨rfl, by decide⟩

/-- Claim C1 (amended): for every discovered fragment-path list of any
length N >= 0 — including N = 0 — merging invokes the merge command
exactly once, with the N paths spliced in and a single consolidated
output argument; the empty case is not skipped. -/
theorem mergeInvokedExactlyOnce (ext : CovExt)
    (h1 : ext.testsOk = true) (h2 : ext.cargoTestOk = true) :
    (rust_coverage ext).1.countP isMergeRun = 1 ∧
    Event.run (mergeCmd ext.profrawGlob) ∈ (rust_coverage ext).1 := by
  cases hcap : ext.captured with
  | none =>
    cases hpm : ext.profdataMergeOk <;> cases hco : ext.capturedOk <;>
      simp [rust_coverage, chdirBody, parseStage, covExportStage,
        h1, h2, hpm, hco, hcap, List.countP_cons, List.countP_nil]
  | some blobs =>
    cases hpb : processBlobs blobs with
    | ok fnames =>
      cases hpm : ext.profdataMergeOk <;> cases hco : ext.capturedOk <;>
        simp [rust_coverage, chdirBody, parseStage, covExportStage,
          h1, h2, hpm, hco, hcap, hpb, List.countP_cons, List.countP_nil]
    | error e =>
      cases hpm : ext.profdataMergeOk <;> cases hco : ext.capturedOk <;>
        simp [rust_coverage, chdirBody, parseStage, covExportStage,
          h1, h2, hpm, hco, hcap, hpb, List.countP_cons, List.countP_nil]

/-- Claim C1 witness: the amended claim at the concrete oracle with an
empty fragment list. -/
theorem mergeInvokedExactlyOnceWitness :
    extNoFrag.testsOk = true ∧ extNoFrag.cargoTestOk = true ∧
    ((rust_coverage extNoFrag).1.countP isMergeRun = 1 ∧
     Event.run (mergeCmd extNoFrag.profrawGlob) ∈
       (rust_coverage extNoFrag).1) :=
  ⟨rfl, rfl, mergeInvokedExactlyOnce extNoFrag rfl rfl⟩

/-- A message lacking an expected field makes the `try` body raise
`KeyError`. -/
theorem tryBlock_keyError_of_missing (fns : List JsonVal) (d : JsonVal)
    (h : missingExpectedField d = true) :
    tryBlock fns d = .error .keyError := by
  unfold missingExpectedField at h
  unfold tryBlock
  cases hp : d.getItem "profile" with
  | error e =>
    rw [hp] at h
    cases e <;> simp_all
  | ok profile =>
    rw [hp] at h
    dsimp only at h
    dsimp only
    cases ht : profile.getItem "test" with
    | error e =>
      rw [ht] at h
      cases e <;> simp_all
    | ok t =>
      rw [ht] at h
      dsimp only at h
      dsimp only
      cases htr : t.truthy with
      | false => rw [htr] at h; simp at h
      | true =>
        rw [htr] at h
        simp only [if_true] at h ⊢
        cases hf : d.getItem "filenames" with
        | error e =>
          rw [hf] at h
          cases e <;> simp_all
        | ok fv => rw [hf] at h; simp at h

/-- A `KeyError` from the `try` body is caught and skipped. -/
theorem processBlob_keyError (fns : List JsonVal) (d : JsonVal)
    (h : tryBlock fns d = .error .keyError) :
    processBlob fns (.val d) = .ok fns := by
  simp only [processBlob]
  rw [h]

/-- Claim C2, counterexample: a line on which structural decode fails
is NOT skipped silently — `json.loads` sits outside the `try`, so the
decode error propagates and, in a full pipeline run, aborts the whole
session (the claim says the pipeline never aborts because of such a
line). -/
theorem undecodableLineAborts :
    processBlob [] Blob.undecodable = .error .jsonDecodeError ∧
    (rust_coverage extUndecodable).2 = .error .jsonDecodeError :=
  ⟨rfl, rfl⟩

/-- Claim C2 (amended): for every build-message line that decodes but
lacks the expected fields, the parser skips that line silently — the
reference list is unchanged and no error is raised; but a line on
which structural decode fails raises a decode error that aborts the
pipeline rather than being skipped. -/
theorem missingFieldSkippedUndecodableAborts (fns : List JsonVal)
    (d : JsonVal) (h : missingExpectedField d = true) :
    processBlob fns (Blob.val d) = .ok fns ∧
    processBlob fns Blob.undecodable = .error .jsonDecodeError :=
  ⟨processBlob_keyError fns d (tryBlock_keyError_of_missing fns d h),
   rfl⟩

/-- Claim C2 witness: the amended claim at a concrete record lacking
the `filenames` field. -/
theorem missingFieldSkippedUndecodableAbortsWitness :
    missingExpectedField missingFieldRecord = true ∧
    (processBlob [] (Blob.val missingFieldRecord) = .ok [] ∧
     processBlob [] Blob.undecodable = .error .jsonDecodeError) :=
  ⟨rfl, missingFieldSkippedUndecodableAborts [] missingFieldRecord rfl⟩

/-- Claim C3, counterexample: with a non-empty captured stream that
yields an EMPTY reference list, the export stage still runs — the
coverage-export command is invoked and the report file is opened
(created) at the fixed location, contradicting the claim that an empty
reference list skips the export entirely. -/
theorem exportRunsOnEmptyRefs :
    processBlobs [Blob.val (JsonVal.obj [])] = .ok [] ∧
    Event.openFile covReportPath "wb" ∈ (rust_coverage extEmptyRefs).1 ∧
    (rust_coverage extEmptyRefs).1.countP isCovRun = 1 :=
  ⟨rfl, by decide, by decide⟩

/-- Claim C3 (amended): an empty reference list does not by itself
skip the export stage — whenever the captured build-message output is
non-empty (truthy) and the parse loop finishes, the coverage-export
command is invoked and the report file is opened at the fixed output
location even if the reference list is empty.  The export stage is
skipped only when the captured output itself is empty or absent. -/
theorem exportRunsWheneverOutputNonEmpty (ext : CovExt)
    (blobs : List Blob)
    (h1 : ext.testsOk = true) (h2 : ext.cargoTestOk = true)
    (h3 : ext.profdataMergeOk = true) (h4 : ext.capturedOk = true)
    (h5 : ext.captured = some blobs)
    (h6 : processBlobs blobs = .ok []) :
    Event.openFile covReportPath "wb" ∈ (rust_coverage ext).1 ∧
    (rust_coverage ext).1.countP isCovRun = 1 := by
  simp [rust_coverage, chdirBody, parseStage, covExportStage,
    h1, h2, h3, h4, h5, h6, List.countP_cons, List.countP_nil]

/-- Claim C3 witness: the amended claim at the concrete oracle whose
stream decodes to zero references. -/
theorem exportRunsWheneverOutputNonEmptyWitness :
    extEmptyRefs.testsOk = true ∧ extEmptyRefs.cargoTestOk = true ∧
    extEmptyRefs.profdataMergeOk = true ∧ extEmptyRefs.capturedOk = true ∧
    extEmptyRefs.captured = some [Blob.val (JsonVal.obj [])] ∧
    processBlobs [Blob.val (JsonVal.obj [])] = .ok [] ∧
    (Event.openFile covReportPath "wb" ∈ (rust_coverage extEmptyRefs).1 ∧
     (rust_coverage extEmptyRefs).1.countP isCovRun = 1) :=
  ⟨rfl, rfl, rfl, rfl, rfl, rfl,
   exportRunsWheneverOutputNonEmpty extEmptyRefs
     [Blob.val (JsonVal.obj [])] rfl rfl rfl rfl rfl rfl⟩

/-- Claim C4: a successfully decoded build message whose test-profile
indicator is truthy and whose path list has length other than one
makes the pipeline fail with the `assert` invariant violation
(`AssertionError`), and this failure happens before any export step:
no file is ever opened and the coverage-export command is never
invoked in the trace. -/
theorem badShapeAbortsBeforeExport (ext : CovExt)
    (pre post : List Blob) (fns : List JsonVal) (d p t : JsonVal)
    (files : List JsonVal)
    (h1 : ext.testsOk = true) (h2 : ext.cargoTestOk = true)
    (h3 : ext.profdataMergeOk = true) (h4 : ext.capturedOk = true)
    (h5 : ext.captured = some (pre ++ Blob.val d :: post))
    (h6 : processBlobsFrom [] pre = .ok fns)
    (hp : d.getItem "profile" = .ok p)
    (ht : p.getItem "test" = .ok t)
    (htr : t.truthy = true)
    (hf : d.getItem "filenames" = .ok (JsonVal.arr files))
    (hn : files.length ≠ 1) :
    (rust_coverage ext).2 = .error .assertionError ∧
    (rust_coverage ext).1.countP isOpenEvent = 0 ∧
    (rust_coverage ext).1.countP isCovRun = 0 := by
  have hb : processBlob fns (Blob.val d) = .error .assertionError :=
    processBlob_assertion fns d
      (tryBlock_assertion fns d p t files hp ht htr hf hn)
  have hpb : processBlobs (pre ++ Blob.val d :: post) =
      .error .assertionError := by
    unfold processBlobs
    rw [processBlobsFrom_append, h6]
    dsimp only
    simp only [processBlobsFrom, hb]
  simp [rust_coverage, chdirBody, parseStage,
    h1, h2, h3, h4, h5, hpb, List.countP_cons, List.countP_nil]

/-- Claim C4 witness: the concrete oracle whose stream holds one
test-profile record with an empty path list. -/
theorem badShapeAbortsBeforeExportWitness :
    extBadRecord.testsOk = true ∧ extBadRecord.cargoTestOk = true ∧
    extBadRecord.profdataMergeOk = true ∧ extBadRecord.capturedOk = true ∧
    extBadRecord.captured = some ([] ++ Blob.val badRecord :: []) ∧
    processBlobsFrom [] [] = .ok [] ∧
    badRecord.getItem "profile" =
      .ok (JsonVal.obj [("test", JsonVal.bool true)]) ∧
    (JsonVal.obj [("test", JsonVal.bool true)]).getItem "test" =
      .ok (JsonVal.bool true) ∧
    (JsonVal.bool true).truthy = true ∧
    badRecord.getItem "filenames" = .ok (JsonVal.arr []) ∧
    ([] : List JsonVal).length ≠ 1 ∧
    ((rust_coverage extBadRecord).2 = .error .assertionError ∧
     (rust_coverage extBadRecord).1.countP isOpenEvent = 0 ∧
     (rust_coverage extBadRecord).1.countP isCovRun = 0) :=
  ⟨rfl, rfl, rfl, rfl, rfl, rfl, rfl, rfl, rfl, rfl, by decide,
   badShapeAbortsBeforeExport extBadRecord [] [] [] badRecord
     (JsonVal.obj [("test", JsonVal.bool true)]) (JsonVal.bool true) []
     rfl rfl rfl rfl rfl rfl rfl rfl rfl rfl (by decide)⟩

/-- Claim C5: for a message stream containing exactly M well-formed
test-profile records (each with one path), with any non-contributing
lines interleaved, the parser produces exactly the flattening of one
`[marker, path]` pair per record in first-seen encounter order — so it
holds M path entries, each immediately preceded by its `-object`
marker token, and its total length is `2 * M`. -/
theorem parserProducesMarkedRefsInOrder (items : List (String ⊕ Blob))
    (h : goodItems items = true) :
    processBlobs (items.map itemBlob) = .ok (expectedRefs items) ∧
    (expectedRefs items).length = 2 * (items.filterMap itemPath).length :=
  ⟨processBlobs_items items h, expectedRefs_length items⟩

/-- Claim C5 witness: two records around one non-contributing line. -/
theorem parserProducesMarkedRefsInOrderWitness :
    goodItems witnessItems = true ∧
    (processBlobs (witnessItems.map itemBlob) =
       .ok (expectedRefs witnessItems) ∧
     (expectedRefs witnessItems).length =
       2 * (witnessItems.filterMap itemPath).length) :=
  ⟨rfl, parserProducesMarkedRefsInOrder witnessItems rfl⟩

/-- Claim C6: the scoped working-directory change in each of the two
chdir-using sessions is restored on every exit path — for every oracle
(including every combination of failing commands and parse errors),
replaying the trace's chdir effect from any starting directory ends
back at that directory with an empty save stack. -/
theorem chdirRestoredOnEveryExit (ext : CovExt) (rext : RustExt)
    (c : String) :
    cwdReplay c [] (rust_coverage ext).1 = (c, []) ∧
    cwdReplay c [] (rust rext).1 = (c, []) := by
  constructor
  · cases hcap : ext.captured with
    | none =>
      cases h1 : ext.testsOk <;> cases h2 : ext.cargoTestOk <;>
        cases hpm : ext.profdataMergeOk <;> cases hco : ext.capturedOk <;>
          simp [rust_coverage, chdirBody, parseStage, covExportStage,
            h1, h2, hpm, hco, hcap]
    | some blobs =>
      cases hpb : processBlobs blobs with
      | ok fnames =>
        cases h1 : ext.testsOk <;> cases h2 : ext.cargoTestOk <;>
          cases hpm : ext.profdataMergeOk <;> cases hco : ext.capturedOk <;>
            simp [rust_coverage, chdirBody, parseStage, covExportStage,
              h1, h2, hpm, hco, hcap, hpb]
      | error e =>
        cases h1 : ext.testsOk <;> cases h2 : ext.cargoTestOk <;>
          cases hpm : ext.profdataMergeOk <;> cases hco : ext.capturedOk <;>
            simp [rust_coverage, chdirBody, parseStage, covExportStage,
              h1, h2, hpm, hco, hcap, hpb]
  · cases hi : rext.installOk <;> cases hf : rext.fmtOk <;>
      cases hc : rext.clippyOk <;> cases hr : rext.cargoTestOk <;>
        simp [rust, rustBody, hi, hf, hc, hr]

/-- Claim C7: on every oracle — whether the export command succeeds or
fails — any file the `rust_coverage` trace opens is the fixed report
destination opened in binary mode (`wb`), and every opened handle is
closed later in the trace. -/
theorem reportWrittenBinaryAndClosed (ext : CovExt) :
    handlesClosed (rust_coverage ext).1 = true ∧
    (rust_coverage ext).1.countP isBadOpen = 0 := by
  cases hcap : ext.captured with
  | none =>
    cases h1 : ext.testsOk <;> cases h2 : ext.cargoTestOk <;>
      cases hpm : ext.profdataMergeOk <;> cases hco : ext.capturedOk <;>
        simp [rust_coverage, chdirBody, parseStage, covExportStage,
          h1, h2, hpm, hco, hcap, List.countP_cons, List.countP_nil]
  | some blobs =>
    cases hpb : processBlobs blobs with
    | ok fnames =>
      cases h1 : ext.testsOk <;> cases h2 : ext.cargoTestOk <;>
        cases hpm : ext.profdataMergeOk <;> cases hco : ext.capturedOk <;>
          simp [rust_coverage, chdirBody, parseStage, covExportStage,
            h1, h2, hpm, hco, hcap, hpb, List.countP_cons, List.countP_nil]
    | error e =>
      cases h1 : ext.testsOk <;> cases h2 : ext.cargoTestOk <;>
        cases hpm : ext.profdataMergeOk <;> cases hco : ext.capturedOk <;>
          simp [rust_coverage, chdirBody, parseStage, covExportStage,
            h1, h2, hpm, hco, hcap, hpb, List.countP_cons, List.countP_nil]

/-- Claim C8: before the instrumented test run is invoked, the
coverage session updates the environment with exactly two variables:
the native-toolchain instrumentation flag and the per-process profile
path template, whose value contains the `%p` process-identifier
placeholder. -/
theorem envSetBeforeTests (ext : CovExt) :
    (rust_coverage ext).1.take 2 =
      [Event.envUpdate covEnv, Event.runTests] ∧
    covEnv.length = 2 ∧
    covEnv.map Prod.fst = ["RUSTFLAGS", "LLVM_PROFILE_FILE"] ∧
    covEnv = [("RUSTFLAGS", "-Cinstrument-coverage"),
              ("LLVM_PROFILE_FILE",
                "rust-cov/cov-" ++ "%p" ++ ".profraw")] := by
    refine ⟨?_, rfl, rfl, rfl⟩
    cases h1 : ext.testsOk <;>
      simp [rust_coverage, h1, List.take]

/-- Claim C9: a successfully decoded message whose test-profile
indicator is truthy but which lacks the `filenames` field entirely is
silently skipped — the subscript raises `KeyError` before the
exactly-one-path `assert` is reached, the handler catches it, and the
reference list is unchanged. -/
theorem missingFilenamesFieldSkipped (fns : List JsonVal) (d p t : JsonVal)
    (hp : d.getItem "profile" = .ok p)
    (ht : p.getItem "test" = .ok t)
    (htr : t.truthy = true)
    (hf : d.getItem "filenames" = .error .keyError) :
    processBlob fns (Blob.val d) = .ok fns := by
  apply processBlob_keyError
  unfold tryBlock
  rw [hp]
  dsimp only
  rw [ht]
  dsimp only
  rw [htr]
  simp only [if_true]
  rw [hf]

/-- Claim C9 witness: the concrete record with a truthy test flag and
no `filenames` field. -/
theorem missingFilenamesFieldSkippedWitness :
    missingFieldRecord.getItem "profile" =
      .ok (JsonVal.obj [("test", JsonVal.bool true)]) ∧
    (JsonVal.obj [("test", JsonVal.bool true)]).getItem "test" =
      .ok (JsonVal.bool true) ∧
    (JsonVal.bool true).truthy = true ∧
    missingFieldRecord.getItem "filenames" = .error .keyError ∧
    processBlob [JsonVal.str "keep"] (Blob.val missingFieldRecord) =
      .ok [JsonVal.str "keep"] :=
  ⟨rfl, rfl, rfl, rfl,
   missingFilenamesFieldSkipped [JsonVal.str "keep"] missingFieldRecord
     (JsonVal.obj [("test", JsonVal.bool true)]) (JsonVal.bool true)
     rfl rfl rfl rfl⟩

/-- Claim C10: when the captured output of the build-message run is
empty or absent (falsy), the whole downstream stage is skipped: the
trace contains no shared-object glob, no file open, and no
coverage-export invocation, and — when every invoked command
succeeded — the session still ends successfully. -/
theorem emptyOutputSkipsDownstream (ext : CovExt)
    (h : ext.captured = none) :
    (rust_coverage ext).1.countP isSoGlob = 0 ∧
    (rust_coverage ext).1.countP isOpenEvent = 0 ∧
    (rust_coverage ext).1.countP isCovRun = 0 ∧
    (ext.testsOk = true → ext.cargoTestOk = true →
      ext.profdataMergeOk = true → ext.capturedOk = true →
      (rust_coverage ext).2 = .ok ()) := by
  cases h1 : ext.testsOk <;> cases h2 : ext.cargoTestOk <;>
    cases hpm : ext.profdataMergeOk <;> cases hco : ext.capturedOk <;>
      simp [rust_coverage, chdirBody, parseStage,
        h1, h2, hpm, hco, h, List.countP_cons, List.countP_nil]

/-- Claim C10 witness: the all-success oracle with absent captured
output. -/
theorem emptyOutputSkipsDownstreamWitness :
    extNoOutput.captured = none ∧
    ((rust_coverage extNoOutput).1.countP isSoGlob = 0 ∧
     (rust_coverage extNoOutput).1.countP isOpenEvent = 0 ∧
     (rust_coverage extNoOutput).1.countP isCovRun = 0 ∧
     (extNoOutput.testsOk = true → extNoOutput.cargoTestOk = true →
       extNoOutput.profdataMergeOk = true → extNoOutput.capturedOk = true →
       (rust_coverage extNoOutput).2 = .ok ())) :=
  ⟨rfl, emptyOutputSkipsDownstream extNoOutput rfl⟩
